import Mathlib

/-!
Verification development for the `plan-changer` repository.

Shallow embedding of the core logic of
* `src/lib/services/plan-changer.ts` (plan catalog resolver, form scraper,
  login-flow credential override, confirm flow, `changePlan` engine), and
* `src/lib/scheduler.ts` (the per-minute trigger scheduler tick),
as executable Lean definitions, followed by theorems settling the frozen
claims about this code.

Modelling conventions:
* JavaScript string-keyed objects (`Record<string, string>` field bags) are
  modelled as association lists with unique keys; `obj[k] = v` is `setField`
  (overwrite in place or append), `obj[k]` is `lookupField`.
* HTML documents are modelled post-parse: `cheerio.load` is external, so a
  page is an `HtmlDoc` of forms / inputs / title, and cheerio selector
  queries are modelled as functions over that structure.
* Network responses are environment inputs: a flow takes the statuses and
  bodies the portal answered with, and computes the same control flow the
  TypeScript code runs on them.
* Only ASCII case mapping matters for the strings this code compares
  (`toLowerCase` on keywords, plan names, attribute values), so lowercasing
  is `Char.toLower` over the characters.
-/

namespace PlanChanger

/-! ## JS string helpers -/

/-- Whitespace as matched by the JavaScript regexp class `\s` and by
`String.prototype.trim`, restricted to the ASCII range used by this code. -/
def isJsWs (c : Char) : Bool :=
  c == ' ' || c == '\t' || c == '\n' || c == '\r' ||
  c.toNat == 11 || c.toNat == 12

/-- JS `String.prototype.trim`: drop leading and trailing whitespace. -/
def jsTrim (cs : List Char) : List Char :=
  ((cs.dropWhile isJsWs).reverse.dropWhile isJsWs).reverse

/-- ASCII `String.prototype.toLowerCase` on a character list. -/
def lowerChars (cs : List Char) : List Char :=
  cs.map Char.toLower

/-- ASCII `String.prototype.toLowerCase`. -/
def lowerStr (s : String) : String :=
  ⟨lowerChars s.data⟩

/-- Does `cs` start with `pre`? (list version of a startsWith test). -/
def beginsWith : List Char → List Char → Bool
  | [], _ => true
  | _ :: _, [] => false
  | n :: ns, h :: hs => n == h && beginsWith ns hs

/-- Does `hay` contain `needle` as a contiguous substring? -/
def hasSub (needle : List Char) : List Char → Bool
  | [] => needle.isEmpty
  | c :: hs => beginsWith needle (c :: hs) || hasSub needle hs

/-- JS `String.prototype.includes hay needle`. -/
def strIncludes (hay needle : String) : Bool :=
  hasSub needle.data hay.data

/-- JavaScript `x || d` for an optional string `x`: `undefined` and the empty
string are falsy and yield the default. -/
def jsOr (o : Option String) (d : String) : String :=
  match o with
  | none => d
  | some s => if s = "" then d else s

/-- JavaScript truthiness of an optional string. -/
def jsTruthy (o : Option String) : Bool :=
  match o with
  | none => false
  | some s => s ≠ ""

/-! ## JS object field bags

`Record<string, string>`-style objects: association lists with unique keys.
`setField` models `obj[k] = v` (overwrite the existing entry in place, else
append), matching JS insertion-order semantics; `lookupField` models `obj[k]`;
`hasKey` models `Object.prototype.hasOwnProperty` / the `in` operator. -/

def lookupField {α : Type} : List (String × α) → String → Option α
  | [], _ => none
  | p :: t, k => if p.1 = k then some p.2 else lookupField t k

def hasKey {α : Type} : List (String × α) → String → Bool
  | [], _ => false
  | p :: t, k => p.1 = k || hasKey t k

/-- Assignment `obj[k] = v`: overwrite the entry for `k` in place, else append.  Every
bag in this development is built by `setField` from `[]`, so keys are unique
and replacing the first occurrence is replacing the only one. -/
def setField {α : Type} : List (String × α) → String → α → List (String × α)
  | [], k, v => [(k, v)]
  | p :: t, k, v => if p.1 = k then (k, v) :: t else p :: setField t k v

/-! ## Plan catalog resolver (`plan-changer.ts` lines 13-63) -/

/-- Table `PLAN_TO_PSID_CANONICAL`, in catalog definition order. -/
def PLAN_TO_PSID_CANONICAL : List (String × Nat) :=
  [("Standby", 2623),
   ("nbn100/20", 2613),
   ("nbn100/40", 2608),
   ("Home Fast", 2669),
   ("Home SuperFast", 2615),
   ("Ultrafast-100", 2617),
   ("nbn250/100", 2664),
   ("Hyperfast", 2666),
   ("IoT 1Mbps", 2629),
   ("IoT 4Mbps", 2635)]

/-- Table `PLAN_NAME_ALIASES` (keys stored pre-normalized). -/
def PLAN_NAME_ALIASES : List (String × String) :=
  [("homefast", "Home Fast"),
   ("home-fast", "Home Fast"),
   ("homesuperfast", "Home SuperFast"),
   ("home-superfast", "Home SuperFast"),
   ("ultrafast100", "Ultrafast-100"),
   ("ultrafast-100", "Ultrafast-100"),
   ("iot1mbps", "IoT 1Mbps"),
   ("iot-1mbps", "IoT 1Mbps"),
   ("iot4mbps", "IoT 4Mbps"),
   ("iot-4mbps", "IoT 4Mbps")]

/-- One pass of `.replace(/[\s]+/g, " ")` (or, with `p := (· == '-')`, the
replace of one-or-more hyphens by "-"): each maximal run of characters matching `p` is
replaced by the single character `rep`.  The boolean argument records whether
the previous character was part of such a run. -/
def collapseRunsAux (p : Char → Bool) (rep : Char) : Bool → List Char → List Char
  | _, [] => []
  | inRun, c :: cs =>
    if p c then
      (if inRun then [] else [rep]) ++ collapseRunsAux p rep true cs
    else
      c :: collapseRunsAux p rep false cs

def collapseRuns (p : Char → Bool) (rep : Char) (cs : List Char) : List Char :=
  collapseRunsAux p rep false cs

/-- Stage `.replace(/\s*-\s*/g, "-")`: every hyphen absorbs the whitespace
immediately around it.  `pend` buffers (reversed) whitespace not yet known to
precede a hyphen; `afterDash` means we are eating the whitespace that the
greedy `\s*` after a just-replaced hyphen consumes. -/
def replWsDashAux : List Char → Bool → List Char → List Char
  | pend, _, [] => pend.reverse
  | pend, afterDash, c :: cs =>
    if isJsWs c then
      if afterDash then replWsDashAux pend true cs
      else replWsDashAux (c :: pend) false cs
    else if c == '-' then
      '-' :: replWsDashAux [] true cs
    else
      pend.reverse ++ c :: replWsDashAux [] false cs

def replWsDash (cs : List Char) : List Char :=
  replWsDashAux [] false cs

/-- Stage `.replace(/\s+/g, "")`: strip all remaining whitespace. -/
def stripWs (cs : List Char) : List Char :=
  cs.filter (fun c => !isJsWs c)

/-- Function `normalizePlanName` (`plan-changer.ts` lines 39-45): trim, lowercase,
collapse whitespace runs to one space, collapse whitespace around hyphens to
a bare hyphen, strip remaining whitespace, collapse hyphen runs. -/
def normalizePlanName (s : String) : String :=
  ⟨collapseRuns (· == '-') '-'
    (stripWs (replWsDash (collapseRuns isJsWs ' ' (lowerChars (jsTrim s.data)))))⟩

/-- Table `NORMALIZED_TO_CANONICAL` (lines 47-56): normalized canonical names first,
then the pre-normalized aliases, later writes winning on key collision. -/
def NORMALIZED_TO_CANONICAL : List (String × String) :=
  let base := PLAN_TO_PSID_CANONICAL.foldl
    (fun m p => setField m (normalizePlanName p.1) p.1) []
  PLAN_NAME_ALIASES.foldl (fun m p => setField m p.1 p.2) base

/-- Function `resolvePlanToPsid` (lines 58-63).  `if (!canonical) return null` is falsy
on both a missing key and an empty string. -/
def resolvePlanToPsid (planInput : String) : Option (Nat × String) :=
  match lookupField NORMALIZED_TO_CANONICAL (normalizePlanName planInput) with
  | none => none
  | some canonical =>
    if canonical = "" then none
    else some ((lookupField PLAN_TO_PSID_CANONICAL canonical).getD 0, canonical)

/-! ## HTML model (post-parse)

`cheerio.load` is external; an `HtmlDoc` is the parsed page the selector
queries run against.  Attribute absence is `none`. -/

structure InputEl where
  name : Option String
  /-- the `type` attribute; absent means no attribute (defaulted to `"text"`
  by `collectFormInputs`, and never matched by `input type=password`). -/
  type : Option String
  /-- the `value` attribute; `$(el).val()` on an input returns it. -/
  value : Option String
  /-- whether `$(el).is(":checked")` holds. -/
  checked : Bool
deriving DecidableEq, Repr

structure OptionEl where
  value : Option String
  text : String
  selected : Bool
deriving DecidableEq, Repr

structure SelectEl where
  name : Option String
  options : List OptionEl
deriving DecidableEq, Repr

structure TextareaEl where
  name : Option String
  text : String
deriving DecidableEq, Repr

structure FormEl where
  name : Option String
  action : Option String
  method : Option String
  inputs : List InputEl
  selects : List SelectEl
  textareas : List TextareaEl
deriving DecidableEq, Repr

structure HtmlDoc where
  /-- text of the `title` element (empty when there is none). -/
  title : String
  forms : List FormEl
  /-- inputs outside any form: document-wide selectors such as
  `input type=password` see these too. -/
  looseInputs : List InputEl
deriving DecidableEq, Repr

/-- all inputs in the document, as seen by a document-wide `input` selector. -/
def docInputs (d : HtmlDoc) : List InputEl :=
  d.forms.flatMap (·.inputs) ++ d.looseInputs

/-! ## Form scraper (`collectFormInputs`, `plan-changer.ts` lines 129-168) -/

/-- Function `collectFormInputs`: inputs, then selects, then textareas, later writes
winning on key collision.  A checkbox/radio input contributes only when
checked, using its `value` attribute or the literal `"on"`; any other input
contributes its `value` attribute or `""`.  A select contributes the first
selected option's value (falling back, per `selected.text()` on the cheerio
collection, to the concatenated text of all selected options), else the first
option's value or text.  A textarea contributes its text. -/
def collectFormInputs (form : FormEl) : List (String × String) :=
  let d1 := form.inputs.foldl
    (fun d el =>
      match el.name with
      | none => d
      | some name =>
        let ty := lowerStr (el.type.getD "text")
        if ty == "checkbox" || ty == "radio" then
          if el.checked then setField d name (el.value.getD "on") else d
        else
          setField d name (el.value.getD "")) []
  let d2 := form.selects.foldl
    (fun d el =>
      match el.name with
      | none => d
      | some name =>
        match el.options.filter (·.selected) with
        | [] =>
          match el.options.head? with
          | some first => setField d name (first.value.getD first.text)
          | none => d
        | sel =>
          let v := match sel.head? >>= (·.value) with
            | some v => v
            | none => String.join (sel.map (·.text))
          setField d name v) d1
  let d3 := form.textareas.foldl
    (fun d el =>
      match el.name with
      | none => d
      | some name => setField d name el.text) d2
  d3

/-! ## Login flow credential override (`login`, lines 188-196)

The network parts of `login` (GET the login page, POST the body) consume
external responses; the logic settled here is how the scraped field set is
rewritten with the configured credentials before the POST.  `body.set` over
the unique-keyed field list preserves it unchanged, so the rewritten field
set is exactly what is POSTed. -/

/-- the username field name: first of `username`, `email`, `user`, `login`
present in the scraped set, else `username` (the `|| "username"` default). -/
def chosenUserField (fields : List (String × String)) : String :=
  (["username", "email", "user", "login"].find? (fun n => hasKey fields n)).getD
    "username"

/-- the password field name: first of `password`, `passwd`, `pass` present in
the scraped set, else `password`. -/
def chosenPassField (fields : List (String × String)) : String :=
  (["password", "passwd", "pass"].find? (fun n => hasKey fields n)).getD
    "password"

/-- Assignments `fields[userField] = config.username; fields[passField] = config.password`. -/
def applyCredentials (fields : List (String × String)) (username password : String) :
    List (String × String) :=
  setField (setField fields (chosenUserField fields) username)
    (chosenPassField fields) password

/-! ## Confirm flow (`confirmService`, lines 227-307) -/

/-- login-page signals (lines 243-246): any password-type input anywhere in
the document, any form whose `action` attribute contains `login`
(case-insensitively, the `i` selector flag), or a title containing `login`
(the `/login/i` test).  `type` attribute values match ASCII
case-insensitively in HTML selector matching. -/
def looksLikeLogin (d : HtmlDoc) : Bool :=
  (docInputs d).any (fun el =>
    match el.type with
    | some t => lowerStr t == "password"
    | none => false) ||
  d.forms.any (fun f =>
    match f.action with
    | some a => strIncludes (lowerStr a) "login"
    | none => false) ||
  strIncludes (lowerStr d.title) "login"

/-- form location (lines 252-258), first match wins: a form named
`confirm_service`; else a form whose action contains `/confirm_service`;
else a form containing an input named `psid`. -/
def locateConfirmForm (d : HtmlDoc) : Option FormEl :=
  match d.forms.find? (fun f => f.name == some "confirm_service") with
  | some f => some f
  | none =>
    match d.forms.find? (fun f =>
      match f.action with
      | some a => strIncludes a "/confirm_service"
      | none => false) with
    | some f => some f
    | none => d.forms.find? (fun f => f.inputs.any (·.name == some "psid"))

/-- configuration record (`PlanChangerConfig`). -/
structure PlanChangerConfig where
  base : String
  username : String
  password : String
  userId : String
  serviceId : String
  avcId : String
  locId : String
  discountCode : Option String
  unpause : Option String
  coat : Option String
  churn : Option String
  scheduledDt : Option String
  newServicePaymentOption : Option String
  timeoutMs : Option Int
  psid : String
deriving DecidableEq, Repr

/-- the POSTed field set of the confirm flow (lines 263-285): scrape the
located form, apply the fixed overrides, and force `discount_code` whenever
the scraped form had that key or a discount code is configured. -/
def confirmPostFields (config : PlanChangerConfig) (form : FormEl) :
    List (String × String) :=
  let fields := collectFormInputs form
  let overrides : List (String × String) :=
    [("ntdreplace", (lookupField fields "ntdreplace").getD "0"),
     ("ntdupgrade", (lookupField fields "ntdupgrade").getD "0"),
     ("userid", config.userId),
     ("psid", config.psid),
     ("locid", config.locId),
     ("avcid", config.avcId),
     ("unpause", jsOr config.unpause "0"),
     ("scheduleddt", jsOr config.scheduledDt ""),
     ("coat", jsOr config.coat "0"),
     ("new_service_payment_option", jsOr config.newServicePaymentOption "")]
  let fields := overrides.foldl (fun m p => setField m p.1 p.2) fields
  if hasKey fields "discount_code" || jsTruthy config.discountCode then
    setField fields "discount_code" (jsOr config.discountCode "")
  else fields

/-- List `successIndicators` (line 301). -/
def successIndicators : List String :=
  ["confirmed", "success", "submitted", "thank you"]

/-- Function `isLikelySuccess` (line 302): the lowercased response body contains one
of the indicator substrings. -/
def isLikelySuccess (html : String) : Bool :=
  successIndicators.any (fun kw => strIncludes (lowerStr html) kw)

/-- the portal's answers to the confirm flow's two requests: the GET status
and (parsed) body, and the POST status and body.  The request addressing
(`buildConfirmGetUrl`, `absoluteUrl`) only selects which responses these are
and is not needed by any claim. -/
structure ConfirmResponses where
  getStatus : Nat
  getDoc : HtmlDoc
  postStatus : Nat
  postBody : String
deriving DecidableEq, Repr

/-- Function `confirmService`: control flow on given portal responses: GET status
check, authentication check, form location, field overrides, POST status
check, then the keyword classification.  Each `throw` in the source
is an `Except.error` of the same message. -/
def confirmService (config : PlanChangerConfig) (r : ConfirmResponses) :
    Except String Unit :=
  if r.getStatus ≥ 400 then
    Except.error ("Confirm page GET failed with status " ++ toString r.getStatus)
  else if looksLikeLogin r.getDoc then
    Except.error "Not authenticated on confirm page (login detected)"
  else
    match locateConfirmForm r.getDoc with
    | none => Except.error "Confirm form not found on the page"
    | some form =>
      let _posted := confirmPostFields config form
      if r.postStatus ≥ 400 then
        Except.error ("Confirm form POST failed with status " ++ toString r.postStatus)
      else if isLikelySuccess r.postBody then Except.ok ()
      else
        Except.error
          "Plan change confirmation unclear - success indicators not found in response"

/-! ## Automation engine (`changePlan`, lines 311-336) -/

/-- decimal digits to a natural number. -/
def digitsToNat (cs : List Char) : Nat :=
  cs.foldl (fun a c => a * 10 + (c.toNat - '0'.toNat)) 0

/-- JavaScript `Number(s)` on a string, for the decimal shapes relevant here:
leading/trailing whitespace is trimmed, the empty remainder is `0`, and an
optional sign followed by decimal digits with an optional fractional part
parses as the denoted rational.  Anything else (including the exponent and
hex forms this code never feeds it) is NaN, modelled as `none`; NaN compares
unequal to every number, exactly as `===` does. -/
def jsStringToNumber (s : String) : Option ℚ :=
  let t := jsTrim s.data
  if t.isEmpty then some 0
  else
    let (neg, rest) :=
      match t with
      | '-' :: r => (true, r)
      | '+' :: r => (false, r)
      | r => (false, r)
    let intPart := rest.takeWhile Char.isDigit
    let rest2 := rest.dropWhile Char.isDigit
    let magnitude : Option ℚ :=
      match rest2 with
      | [] =>
        if intPart.isEmpty then none
        else some ((digitsToNat intPart : Nat) : ℚ)
      | '.' :: frac =>
        if frac.all Char.isDigit && !(intPart.isEmpty && frac.isEmpty) then
          some (((digitsToNat (intPart ++ frac) : Nat) : ℚ) /
            ((10 : ℚ) ^ frac.length))
        else none
      | _ => none
    magnitude.map (fun q => if neg then -q else q)

/-- the reverse lookup at the top of `changePlan` (lines 315-316):
`Object.entries(PLAN_TO_PSID_CANONICAL).find(([_, psid]) => psid ===
Number(config.psid))`, taking the name of the first catalog entry whose code
strictly equals `Number(config.psid)`. -/
def planNameForPsid (psidStr : String) : Option String :=
  (PLAN_TO_PSID_CANONICAL.find? (fun p =>
    decide (jsStringToNumber psidStr = some ((p.2 : Nat) : ℚ)))).map (·.1)

/-- Record `PlanChangeResult`. -/
structure PlanChangeResult where
  success : Bool
  message : String
  planName : Option String
  psid : Option String
  timestamp : String
deriving DecidableEq, Repr

/-- Function `changePlan`: the timestamp is captured at the start of the run; the
session, login flow and confirm flow run inside one `try`, whose outcomes
against the live portal are the `loginOutcome` and `confirmOutcome` inputs
(an `Except.error` is the error the flow threw; when login throws the
confirm flow never runs, which the short-circuiting match reflects).  Any
caught error yields `success := false` with the error's message and the
start-of-run timestamp; completion of both flows yields the success record. -/
def changePlan (config : PlanChangerConfig) (timestamp : String)
    (loginOutcome : Except String Unit) (confirmOutcome : Except String Unit) :
    PlanChangeResult :=
  let planName := planNameForPsid config.psid
  match loginOutcome with
  | Except.error e =>
    { success := false, message := e, planName := none, psid := none, timestamp }
  | Except.ok _ =>
    match confirmOutcome with
    | Except.error e =>
      { success := false, message := e, planName := none, psid := none, timestamp }
    | Except.ok _ =>
      { success := true, message := "Plan changed successfully",
        planName, psid := some config.psid, timestamp }

/-! ## Trigger scheduler (`scheduler.ts` lines 21-91)

Clock model.  An instant is milliseconds since the epoch (`Int`).  A timezone
is represented by its UTC offset in minutes at the instant in question (the
IANA database lookup `Intl` performs is external).  The en-US datetime string
`now.toLocaleString("en-US", { timeZone })` denotes, at second granularity,
exactly the civil (wall-clock) time of the instant in that zone, so the
string is modelled by the civil timestamp it denotes: seconds since the epoch
on the zone's wall clock.  `new Date(string)` re-reads those civil fields in
the process's own local zone. -/

/-- civil seconds-since-epoch shown on the wall clock of a zone with UTC
offset `offMin` minutes at instant `t` ms: the content of the
 `toLocaleString` rendering (`toLocaleString` drops sub-second precision). -/
def localSecondsAt (offMin t : Int) : Int :=
  (t + offMin * 60000).ediv 1000

/-- Parse `new Date(s)` where `s` renders the civil timestamp `civilSec` and the
process local zone has UTC offset `localOff` minutes: the instant whose civil
time in the local zone is `civilSec`. -/
def dateFromLocaleString (localOff civilSec : Int) : Int :=
  civilSec * 1000 - localOff * 60000

/-- JS `Date.prototype.getHours` under local UTC offset `localOff`. -/
def getHoursAt (localOff t : Int) : Int :=
  ((localSecondsAt localOff t).ediv 3600).emod 24

/-- JS `Date.prototype.getMinutes` under local UTC offset `localOff`. -/
def getMinutesAt (localOff t : Int) : Int :=
  ((localSecondsAt localOff t).ediv 60).emod 60

/-- a stored schedule entry (the scheduler reads only these fields; the
`timezone` string resolves, via the external `Intl` lookup, to the offset
carried alongside in `EntryRun`). -/
structure ScheduleEntry where
  id : Nat
  planName : String
  psid : String
  hour : Int
  minute : Int
  timezone : String
deriving DecidableEq, Repr

/-- the per-entry firing test of the tick (lines 36-43): render "now" into
the entry's timezone with `toLocaleString`, re-parse it as a local `Date`,
extract local hour and minute, and compare with the stored hour and minute.
`localOff` is the process zone's offset, `tzOff` the entry zone's offset at
`now`. -/
def tickMatches (localOff now tzOff : Int) (e : ScheduleEntry) : Bool :=
  let nowInScheduleTimezone := dateFromLocaleString localOff (localSecondsAt tzOff now)
  let currentHour := getHoursAt localOff nowInScheduleTimezone
  let currentMinute := getMinutesAt localOff nowInScheduleTimezone
  e.hour == currentHour && e.minute == currentMinute

/-- one enabled entry together with the environment's behaviour for it this
tick: the zone offset `Intl` resolves for its timezone, the settled outcome
of `await changePlan(...)` (an `Except.error` is a rejection), and whether
each of the two possible `addLog` calls returns normally (`false` = throws). -/
structure EntryRun where
  entry : ScheduleEntry
  tzOff : Int
  runOutcome : Except String PlanChangeResult
  /-- does the `addLog(result)` call on the success path return normally? -/
  logOk : Bool
  /-- does the `addLog(...)` call inside the catch handler return normally? -/
  failLogOk : Bool
deriving Repr

/-- observable events of one tick, in order. -/
inductive TickEvent where
  /-- the loop reached this entry and evaluated its firing condition. -/
  | checked (id : Nat)
  /-- engine call: `changePlan` was invoked for this entry. -/
  | invoked (id : Nat)
  /-- an `addLog` call for this entry; `ok := false` means it threw. -/
  | logged (id : Nat) (ok : Bool)
  /-- an error escaped the per-entry handler and was caught by the tick-level
  catch, ending the loop: the remaining entries of this tick are skipped. -/
  | tickAborted
deriving DecidableEq, Repr

/-- the `for (const schedule of schedules)` loop of one tick.  A firing entry
runs `changePlan` then `addLog` inside a `try`; the `catch` logs the failure
with a second `addLog`; an exception from that second `addLog` propagates to
the tick-level `try/catch` (lines 88-90), which swallows it but abandons the
rest of the loop. -/
def tickLoop (localOff now : Int) : List EntryRun → List TickEvent
  | [] => []
  | er :: rest =>
    let id := er.entry.id
    if tickMatches localOff now er.tzOff er.entry then
      match er.runOutcome with
      | Except.ok _ =>
        if er.logOk then
          [TickEvent.checked id, TickEvent.invoked id, TickEvent.logged id true] ++
            tickLoop localOff now rest
        else if er.failLogOk then
          [TickEvent.checked id, TickEvent.invoked id, TickEvent.logged id false,
            TickEvent.logged id true] ++ tickLoop localOff now rest
        else
          [TickEvent.checked id, TickEvent.invoked id, TickEvent.logged id false,
            TickEvent.logged id false, TickEvent.tickAborted]
      | Except.error _ =>
        if er.failLogOk then
          [TickEvent.checked id, TickEvent.invoked id, TickEvent.logged id true] ++
            tickLoop localOff now rest
        else
          [TickEvent.checked id, TickEvent.invoked id, TickEvent.logged id false,
            TickEvent.tickAborted]
    else
      TickEvent.checked id :: tickLoop localOff now rest

/-- the events one entry contributes when processed in isolation (no abort):
the per-entry block of `tickLoop`. -/
def entryEvents (localOff now : Int) (er : EntryRun) : List TickEvent :=
  let id := er.entry.id
  if tickMatches localOff now er.tzOff er.entry then
    match er.runOutcome with
    | Except.ok _ =>
      if er.logOk then
        [TickEvent.checked id, TickEvent.invoked id, TickEvent.logged id true]
      else
        [TickEvent.checked id, TickEvent.invoked id, TickEvent.logged id false,
          TickEvent.logged id true]
    | Except.error _ =>
      [TickEvent.checked id, TickEvent.invoked id, TickEvent.logged id true]
  else [TickEvent.checked id]

/-- successive ticks: the cron callback closes over no mutable state, so a
sequence of ticks is just each tick's loop run on that tick's instant and
entry list, concatenated. -/
def runTicks (localOff : Int) (ticks : List (Int × List EntryRun)) : List TickEvent :=
  ticks.flatMap (fun t => tickLoop localOff t.1 t.2)

/-- does an event record an engine invocation for entry id `id`? -/
def isInvokeOf (id : Nat) : TickEvent → Bool
  | TickEvent.invoked j => j == id
  | _ => false

/-! ## Field-bag lemmas -/

/-- Lemma: `setField` gives `k` the value `v` and leaves every other key unchanged. -/
theorem lookupField_setField {α : Type} (m : List (String × α)) (k j : String)
    (v : α) :
    lookupField (setField m k v) j = if j = k then some v else lookupField m j := by
  induction m with
  | nil =>
    by_cases hjk : j = k
    · simp [setField, lookupField, hjk]
    · simp [setField, lookupField, hjk, Ne.symm hjk]
  | cons a t ih =>
    by_cases hak : a.1 = k
    · by_cases hjk : j = k
      · simp [setField, lookupField, hak, hjk]
      · have hkj : ¬ k = j := fun h => hjk h.symm
        simp [setField, lookupField, hak, hjk, hkj]
    · by_cases haj : a.1 = j
      · have hjk : ¬ j = k := fun h => hak (haj.symm ▸ h)
        simp [setField, lookupField, hak, haj, hjk]
      · simp [setField, lookupField, hak, haj, ih]

/-! ## Login-flow field-choice lemmas -/

theorem chosenUserField_mem (fields : List (String × String)) :
    chosenUserField fields ∈ ["username", "email", "user", "login"] := by
  unfold chosenUserField
  cases h : List.find? (fun n => hasKey fields n) ["username", "email", "user", "login"] with
  | none => simp
  | some x =>
    have hx := List.mem_of_find?_eq_some h
    simpa using hx

theorem chosenPassField_mem (fields : List (String × String)) :
    chosenPassField fields ∈ ["password", "passwd", "pass"] := by
  unfold chosenPassField
  cases h : List.find? (fun n => hasKey fields n) ["password", "passwd", "pass"] with
  | none => simp
  | some x =>
    have hx := List.mem_of_find?_eq_some h
    simpa using hx

/-- the chosen username and password field names are never the same key: the
two candidate lists (with their defaults) are disjoint. -/
theorem chosenUserField_ne_chosenPassField (fields : List (String × String)) :
    chosenUserField fields ≠ chosenPassField fields := by
  have hu := chosenUserField_mem fields
  have hp := chosenPassField_mem fields
  generalize chosenUserField fields = a at hu ⊢
  generalize chosenPassField fields = b at hp ⊢
  fin_cases hu <;> fin_cases hp <;> decide

/-! ## Claim theorems -/

/-- C7 (resolver round-trip): for every one of the ten canonical catalog
entries `(name, code)`, resolving the canonical display name returns exactly
that entry's numeric code together with that same canonical name. -/
theorem c7_resolver_round_trip :
    ∀ p ∈ PLAN_TO_PSID_CANONICAL, resolvePlanToPsid p.1 = some (p.2, p.1) := by
  decide

/-- witness for C7 at the catalog entry `("Home Fast", 2669)`:
`resolve("Home Fast") = (2669, "Home Fast")`. -/
theorem c7_resolver_round_trip_witness :
    resolvePlanToPsid "Home Fast" = some (2669, "Home Fast") :=
  c7_resolver_round_trip ("Home Fast", 2669) (by decide)

/-- the three-input form of the C8 example: a checked checkbox `a` with value
`1`, an unchecked checkbox `b` with no value, a text input `c` with value
`hello`. -/
def c8ExampleForm : FormEl :=
  { name := none
    action := none
    method := some "post"
    inputs :=
      [{ name := some "a", type := some "checkbox", value := some "1", checked := true },
       { name := some "b", type := some "checkbox", value := none, checked := false },
       { name := some "c", type := some "text", value := some "hello", checked := false }]
    selects := []
    textareas := [] }

/-- C8 (form scraping of inputs): a named checkbox/radio input
contributes a field only when checked, using its `value` attribute or the
literal `"on"`; an unchecked checkbox/radio contributes nothing; every other
named input contributes its value (`""` if absent); a nameless input
contributes nothing; and the concrete three-input example scrapes to exactly
`[(a, 1), (c, hello)]` with `b` absent. -/
theorem c8_input_scraping :
    (∀ (nm : String) (ty v : Option String) (chk : Bool),
      collectFormInputs
        { name := none, action := none, method := none,
          inputs := [{ name := some nm, type := ty, value := v, checked := chk }],
          selects := [], textareas := [] } =
        (if lowerStr (ty.getD "text") == "checkbox" ||
            lowerStr (ty.getD "text") == "radio" then
          if chk then [(nm, v.getD "on")] else []
        else [(nm, v.getD "")])) ∧
    (∀ (ty v : Option String) (chk : Bool),
      collectFormInputs
        { name := none, action := none, method := none,
          inputs := [{ name := none, type := ty, value := v, checked := chk }],
          selects := [], textareas := [] } = []) ∧
    collectFormInputs c8ExampleForm = [("a", "1"), ("c", "hello")] := by
  refine ⟨?_, ?_, by decide⟩
  · intro nm ty v chk
    simp only [collectFormInputs, List.foldl_cons, List.foldl_nil]
    cases hty : (lowerStr (ty.getD "text") == "checkbox" ||
        lowerStr (ty.getD "text") == "radio") <;>
      cases chk <;> simp [hty, setField]
  · intro ty v chk
    simp [collectFormInputs]

/-- C9 (login credential override): the username key is the first of
`username`, `email`, `user`, `login` present in the scraped set (default
`username`), the password key the first of `password`, `passwd`, `pass`
(default `password`); exactly those two keys are overwritten with the
configured credentials, and every other scraped field keeps its scraped
value unchanged in the POSTed set. -/
theorem c9_credential_override_frame (fields : List (String × String))
    (username password : String) :
    lookupField (applyCredentials fields username password)
      (chosenUserField fields) = some username ∧
    lookupField (applyCredentials fields username password)
      (chosenPassField fields) = some password ∧
    ∀ k, k ≠ chosenUserField fields → k ≠ chosenPassField fields →
      lookupField (applyCredentials fields username password) k =
        lookupField fields k := by
  have hne := chosenUserField_ne_chosenPassField fields
  unfold applyCredentials
  refine ⟨?_, ?_, ?_⟩
  · rw [lookupField_setField, if_neg hne, lookupField_setField, if_pos rfl]
  · rw [lookupField_setField, if_pos rfl]
  · intro k hku hkp
    rw [lookupField_setField, if_neg hkp, lookupField_setField, if_neg hku]

/-- witness for C9 on the scraped set `[(csrf, tok)]` with credentials
`alice` / `pw`: the CSRF token is replayed unchanged while the defaulted
`username` and `password` keys carry the credentials. -/
theorem c9_credential_override_frame_witness :
    lookupField (applyCredentials [("csrf", "tok")] "alice" "pw") "csrf" =
      some "tok" ∧
    lookupField (applyCredentials [("csrf", "tok")] "alice" "pw") "username" =
      some "alice" ∧
    lookupField (applyCredentials [("csrf", "tok")] "alice" "pw") "password" =
      some "pw" :=
  ⟨(c9_credential_override_frame [("csrf", "tok")] "alice" "pw").2.2 "csrf"
      (by decide) (by decide),
    (c9_credential_override_frame [("csrf", "tok")] "alice" "pw").1,
    (c9_credential_override_frame [("csrf", "tok")] "alice" "pw").2.1⟩

/-- a concrete configuration used by witnesses (psid 2669 = Home Fast). -/
def sampleConfig : PlanChangerConfig :=
  { base := "https://residential.launtel.net.au"
    username := "user"
    password := "secret"
    userId := "1"
    serviceId := "2"
    avcId := "AVC000"
    locId := "LOC000"
    discountCode := none
    unpause := none
    coat := none
    churn := none
    scheduledDt := none
    newServicePaymentOption := none
    timeoutMs := none
    psid := "2669" }

/-- C1 (engine error boundary): `changePlan` never throws — for every
configuration, if login fails the run result is `success := false` with that
error's message and the start-of-run timestamp (whatever the confirm flow
would have done); if login succeeds and confirm fails, likewise with the
confirm error's message; if both flows complete, the result is
`success := true` with message `"Plan changed successfully"`, the configured
plan code echoed as `psid`, and the plan name reverse-looked-up from that
code. -/
theorem c1_engine_error_boundary (config : PlanChangerConfig) (ts : String)
    (loginOutcome confirmOutcome : Except String Unit) :
    (∀ e, loginOutcome = Except.error e →
      changePlan config ts loginOutcome confirmOutcome =
        { success := false, message := e, planName := none, psid := none,
          timestamp := ts }) ∧
    (∀ e, loginOutcome = Except.ok () → confirmOutcome = Except.error e →
      changePlan config ts loginOutcome confirmOutcome =
        { success := false, message := e, planName := none, psid := none,
          timestamp := ts }) ∧
    (loginOutcome = Except.ok () → confirmOutcome = Except.ok () →
      changePlan config ts loginOutcome confirmOutcome =
        { success := true, message := "Plan changed successfully",
          planName := planNameForPsid config.psid, psid := some config.psid,
          timestamp := ts }) := by
  refine ⟨?_, ?_, ?_⟩
  · intro e he
    subst he
    rfl
  · intro e hl hc
    subst hl
    subst hc
    rfl
  · intro hl hc
    subst hl
    subst hc
    rfl

/-- witness for C1: with both flows failing or completing concretely, the
boundary yields exactly the described records. -/
theorem c1_engine_error_boundary_witness :
    changePlan sampleConfig "2026-01-01T00:00:00.000Z" (Except.ok ())
        (Except.error "Confirm form not found on the page") =
      { success := false, message := "Confirm form not found on the page",
        planName := none, psid := none,
        timestamp := "2026-01-01T00:00:00.000Z" } ∧
    changePlan sampleConfig "2026-01-01T00:00:00.000Z" (Except.ok ())
        (Except.ok ()) =
      { success := true, message := "Plan changed successfully",
        planName := planNameForPsid sampleConfig.psid,
        psid := some "2669", timestamp := "2026-01-01T00:00:00.000Z" } :=
  ⟨(c1_engine_error_boundary sampleConfig "2026-01-01T00:00:00.000Z"
      (Except.ok ()) (Except.error "Confirm form not found on the page")).2.1
      "Confirm form not found on the page" rfl rfl,
    (c1_engine_error_boundary sampleConfig "2026-01-01T00:00:00.000Z"
      (Except.ok ()) (Except.ok ())).2.2 rfl rfl⟩

/-- C10 (implicit: unknown plan codes still succeed): when both flows
complete, the run succeeds with the standard message and the configured
`psid` echoed regardless of whether the code is in the catalog, and the
`planName` field is present exactly when `Number(config.psid)` equals some
catalog entry's code. -/
theorem c10_unknown_psid_still_succeeds (config : PlanChangerConfig) (ts : String) :
    (changePlan config ts (Except.ok ()) (Except.ok ())).success = true ∧
    (changePlan config ts (Except.ok ()) (Except.ok ())).message =
      "Plan changed successfully" ∧
    (changePlan config ts (Except.ok ()) (Except.ok ())).psid = some config.psid ∧
    ((changePlan config ts (Except.ok ()) (Except.ok ())).planName.isSome = true ↔
      ∃ p ∈ PLAN_TO_PSID_CANONICAL,
        jsStringToNumber config.psid = some ((p.2 : Nat) : ℚ)) := by
  refine ⟨rfl, rfl, rfl, ?_⟩
  show (planNameForPsid config.psid).isSome = true ↔ _
  unfold planNameForPsid
  cases hf : List.find?
      (fun p => decide (jsStringToNumber config.psid = some ((p.2 : Nat) : ℚ)))
      PLAN_TO_PSID_CANONICAL with
  | none =>
    simp only [hf, Option.map_none', Option.isSome_none, Bool.false_eq_true,
      false_iff]
    rintro ⟨p, hp, heq⟩
    have hnp := List.find?_eq_none.mp hf p hp
    simp [heq] at hnp
  | some q =>
    simp only [hf, Option.map_some', Option.isSome_some, true_iff]
    have hq := List.find?_some
      (p := fun p => decide (jsStringToNumber config.psid = some ((p.2 : Nat) : ℚ)))
      (a := q) hf
    exact ⟨q, List.mem_of_find?_eq_some hf, of_decide_eq_true hq⟩

/-- Variant of `sampleConfig` with a plan code outside the ten-entry catalog. -/
def config9999 : PlanChangerConfig :=
  { sampleConfig with psid := "9999" }

/-- witness-style instance for C10 at the un-catalogued code `"9999"`:
both flows complete, the run succeeds, and `planName` is absent. -/
theorem c10_unknown_psid_still_succeeds_witness :
    (changePlan config9999 "t" (Except.ok ()) (Except.ok ())).success = true ∧
    (changePlan config9999 "t" (Except.ok ()) (Except.ok ())).psid =
      some "9999" ∧
    (changePlan config9999 "t" (Except.ok ()) (Except.ok ())).planName =
      none := by
  have h := c10_unknown_psid_still_succeeds config9999 "t"
  refine ⟨h.1, h.2.2.1, ?_⟩
  have hnone : ¬ ((changePlan config9999 "t" (Except.ok ())
      (Except.ok ())).planName.isSome = true) := by
    rw [h.2.2.2]
    decide
  cases hcase : (changePlan config9999 "t" (Except.ok ())
      (Except.ok ())).planName with
  | none => rfl
  | some x =>
    rw [hcase] at hnone
    simp at hnone

/-- C3 (authentication check precedes form search): whenever the GET
succeeded and the response body carries any login-page signal — a
password-type input, a form whose action contains `login` case-insensitively,
or a title containing `login` case-insensitively — the confirm flow fails
with the not-authenticated error, for every configuration and whatever forms
the page contains and whatever the POST would have answered: no form-location
or override result can affect the outcome. -/
theorem c3_auth_check_first (config : PlanChangerConfig) (r : ConfirmResponses)
    (hget : r.getStatus < 400) (hlogin : looksLikeLogin r.getDoc = true) :
    confirmService config r =
      Except.error "Not authenticated on confirm page (login detected)" := by
  have h1 : ¬ (r.getStatus ≥ 400) := by omega
  simp [confirmService, h1, hlogin]

/-- a page that carries a password input and also a perfectly good confirm
form: the authentication signal still wins. -/
def c3LoginTrapDoc : HtmlDoc :=
  { title := "Please log in"
    forms :=
      [{ name := some "confirm_service"
         action := some "/confirm_service"
         method := some "post"
         inputs :=
           [{ name := some "psid", type := some "hidden", value := some "2669",
              checked := false }]
         selects := []
         textareas := [] }]
    looseInputs :=
      [{ name := some "password", type := some "password", value := none,
         checked := false }] }

/-- witness for C3: on `c3LoginTrapDoc` (password input present, confirm form
also present, successful POST body available) the flow still fails with the
not-authenticated error. -/
theorem c3_auth_check_first_witness :
    confirmService sampleConfig
      { getStatus := 200, getDoc := c3LoginTrapDoc, postStatus := 200,
        postBody := "change confirmed" } =
      Except.error "Not authenticated on confirm page (login detected)" :=
  c3_auth_check_first sampleConfig
    { getStatus := 200, getDoc := c3LoginTrapDoc, postStatus := 200,
      postBody := "change confirmed" }
    (by decide) (by decide)

/-- C2 (confirm success classification): after a POST with status < 400
(on a GET page that passed the authentication check and contained a confirm
form), the run succeeds if and only if the lowercased response body contains
one of `confirmed`, `success`, `submitted`, `thank you`; when none is
present it fails with the confirmation-unclear error. -/
theorem c2_confirm_success_classification (config : PlanChangerConfig)
    (r : ConfirmResponses) (hget : r.getStatus < 400)
    (hlogin : looksLikeLogin r.getDoc = false) (form : FormEl)
    (hform : locateConfirmForm r.getDoc = some form)
    (hpost : r.postStatus < 400) :
    (confirmService config r = Except.ok () ↔
      isLikelySuccess r.postBody = true) ∧
    (isLikelySuccess r.postBody = false →
      confirmService config r = Except.error
        "Plan change confirmation unclear - success indicators not found in response") := by
  have h1 : ¬ (r.getStatus ≥ 400) := by omega
  have h2 : ¬ (r.postStatus ≥ 400) := by omega
  cases hcls : isLikelySuccess r.postBody <;>
    simp [confirmService, h1, h2, hlogin, hform, hcls]

/-- the authenticated confirm page used by the C2 witness. -/
def c2ConfirmDoc : HtmlDoc :=
  { title := "Confirm service"
    forms :=
      [{ name := some "confirm_service"
         action := some "/confirm_service"
         method := some "post"
         inputs :=
           [{ name := some "psid", type := some "hidden", value := some "2669",
              checked := false },
            { name := some "ntdreplace", type := some "hidden", value := some "0",
              checked := false }]
         selects := []
         textareas := [] }]
    looseInputs := [] }

/-- witness for C2: on the authenticated confirm page, a POST body containing
"Your plan change has been submitted" classifies the run as success. -/
theorem c2_confirm_success_classification_witness :
    confirmService sampleConfig
      { getStatus := 200, getDoc := c2ConfirmDoc, postStatus := 200,
        postBody := "Your plan change has been submitted" } = Except.ok () :=
  ((c2_confirm_success_classification sampleConfig
      { getStatus := 200, getDoc := c2ConfirmDoc, postStatus := 200,
        postBody := "Your plan change has been submitted" }
      (by decide) (by decide) _ rfl (by decide)).1).mpr (by decide)

/-! ## Scheduler lemmas -/

/-- re-reading a rendered civil timestamp in the zone it is parsed under
recovers exactly that civil timestamp, whatever the zone offset is. -/
theorem localSecondsAt_dateFromLocaleString (localOff s : Int) :
    localSecondsAt localOff (dateFromLocaleString localOff s) = s := by
  unfold localSecondsAt dateFromLocaleString
  rw [sub_add_cancel]
  exact Int.mul_ediv_cancel s (by norm_num)

theorem getHoursAt_roundTrip (localOff tzOff now : Int) :
    getHoursAt localOff (dateFromLocaleString localOff (localSecondsAt tzOff now)) =
      getHoursAt tzOff now := by
  unfold getHoursAt
  rw [localSecondsAt_dateFromLocaleString]

theorem getMinutesAt_roundTrip (localOff tzOff now : Int) :
    getMinutesAt localOff (dateFromLocaleString localOff (localSecondsAt tzOff now)) =
      getMinutesAt tzOff now := by
  unfold getMinutesAt
  rw [localSecondsAt_dateFromLocaleString]

/-- C4 (timezone-correct firing): the tick's per-entry firing condition —
render "now" into the entry's timezone, re-parse under the process's local
zone, compare local hour and minute with the entry's stored hour and minute —
holds exactly when the wall clock of the entry's own timezone reads the
stored hour and minute, and is therefore independent of the process's local
zone offset. -/
theorem c4_timezone_correct_firing (localOff localOff2 now tzOff : Int)
    (e : ScheduleEntry) :
    (tickMatches localOff now tzOff e =
      ((e.hour == getHoursAt tzOff now) && (e.minute == getMinutesAt tzOff now))) ∧
    tickMatches localOff now tzOff e = tickMatches localOff2 now tzOff e := by
  constructor
  · simp only [tickMatches, getHoursAt_roundTrip, getMinutesAt_roundTrip]
  · simp only [tickMatches, getHoursAt_roundTrip, getMinutesAt_roundTrip]

/-- a run result used by the scheduler examples. -/
def sampleResult : PlanChangeResult :=
  { success := true, message := "Plan changed successfully",
    planName := some "Home Fast", psid := some "2669",
    timestamp := "2026-01-01T00:00:00.000Z" }

/-- entry 0: fires at 00:00 UTC, its run returns normally, but both `addLog`
calls throw. -/
def logDoomedRun : EntryRun :=
  { entry :=
      { id := 0
        planName := "Home Fast"
        psid := "2669"
        hour := 0
        minute := 0
        timezone := "UTC" }
    tzOff := 0
    runOutcome := Except.ok sampleResult
    logOk := false
    failLogOk := false }

/-- entry 1: also fires at 00:00 UTC and would run cleanly. -/
def healthyRun : EntryRun :=
  { entry :=
      { id := 1
        planName := "Standby"
        psid := "2623"
        hour := 0
        minute := 0
        timezone := "UTC" }
    tzOff := 0
    runOutcome := Except.ok sampleResult
    logOk := true
    failLogOk := true }

/-- a second healthy entry sharing the trigger time, for C6. -/
def healthyRun2 : EntryRun :=
  { entry :=
      { id := 2
        planName := "Hyperfast"
        psid := "2666"
        hour := 0
        minute := 0
        timezone := "UTC" }
    tzOff := 0
    runOutcome := Except.ok sampleResult
    logOk := true
    failLogOk := true }

/-- C5 counterexample: the claim fails on the code.  At the tick
`now = 0` (00:00 UTC) entry 0 fires and its logging call throws; the catch
handler's own `addLog` also throws, the tick-level catch ends the loop, and
entry 1 — enabled, matching, healthy — is never evaluated or executed. -/
theorem c5_counterexample_logging_failure_aborts_tick :
    tickLoop 0 0 [logDoomedRun, healthyRun] =
      [TickEvent.checked 0, TickEvent.invoked 0, TickEvent.logged 0 false,
       TickEvent.logged 0 false, TickEvent.tickAborted] ∧
    tickMatches 0 0 healthyRun.tzOff healthyRun.entry = true ∧
    TickEvent.checked 1 ∉ tickLoop 0 0 [logDoomedRun, healthyRun] ∧
    TickEvent.invoked 1 ∉ tickLoop 0 0 [logDoomedRun, healthyRun] := by
  decide

/-- C5 amended (per-entry isolation when the failure log succeeds): as
long as every entry's catch-handler `addLog` would return normally, each
entry's run failure or success-path logging failure is caught and logged in
isolation, and the tick processes every entry independently — the event
stream is exactly the concatenation of each entry's own block. -/
theorem c5_amended_isolation (localOff now : Int) (ers : List EntryRun)
    (h : ∀ er ∈ ers, er.failLogOk = true) :
    tickLoop localOff now ers = ers.flatMap (entryEvents localOff now) := by
  induction ers with
  | nil => rfl
  | cons er rest ih =>
    have her : er.failLogOk = true := h er (List.mem_cons_self er rest)
    have hrest : ∀ x ∈ rest, x.failLogOk = true :=
      fun x hx => h x (List.mem_cons_of_mem er hx)
    rw [List.flatMap_cons, ← ih hrest]
    cases htm : tickMatches localOff now er.tzOff er.entry with
    | false => simp [tickLoop, entryEvents, htm]
    | true =>
      cases hro : er.runOutcome with
      | ok res =>
        cases hlog : er.logOk with
        | true => simp [tickLoop, entryEvents, htm, hro, hlog]
        | false => simp [tickLoop, entryEvents, htm, hro, hlog, her]
      | error e => simp [tickLoop, entryEvents, htm, hro, her]

/-- entry 0 with a rejecting run whose failure log succeeds. -/
def rejectedRun : EntryRun :=
  { logDoomedRun with
      runOutcome := Except.error "network down"
      failLogOk := true }

/-- witness for the amended C5: a concrete two-entry tick in which entry 0's
run rejects but its failure log succeeds; entry 1 still runs. -/
theorem c5_amended_isolation_witness :
    tickLoop 0 0 [rejectedRun, healthyRun] =
      [rejectedRun, healthyRun].flatMap (entryEvents 0 0) :=
  c5_amended_isolation 0 0 [rejectedRun, healthyRun] (by decide)

/-- C6 (no firing history): the tick carries no state, so the same
entry matching on two consecutive ticks invokes the engine twice, and two
entries sharing a trigger time both fire within the same tick with no
de-duplication. -/
theorem c6_no_dedup_no_history (localOff now1 now2 : Int) (er er2 : EntryRun)
    (h1 : tickMatches localOff now1 er.tzOff er.entry = true)
    (h2 : tickMatches localOff now2 er.tzOff er.entry = true)
    (hro : ∃ res, er.runOutcome = Except.ok res) (hlog : er.logOk = true)
    (h3 : tickMatches localOff now1 er2.tzOff er2.entry = true)
    (hro2 : ∃ res, er2.runOutcome = Except.ok res) (hlog2 : er2.logOk = true) :
    (runTicks localOff [(now1, [er]), (now2, [er])]).countP
        (isInvokeOf er.entry.id) = 2 ∧
    TickEvent.invoked er.entry.id ∈ tickLoop localOff now1 [er, er2] ∧
    TickEvent.invoked er2.entry.id ∈ tickLoop localOff now1 [er, er2] := by
  obtain ⟨res, hres⟩ := hro
  obtain ⟨res2, hres2⟩ := hro2
  refine ⟨?_, ?_, ?_⟩
  · simp [runTicks, tickLoop, h1, h2, hres, hlog, List.countP_cons, isInvokeOf]
  · simp [tickLoop, h1, h3, hres, hres2, hlog, hlog2]
  · simp [tickLoop, h1, h3, hres, hres2, hlog, hlog2]

/-- witness for C6: entry 1 fires on the ticks at `now = 0` and
`now = 30000` (both in the 00:00 UTC minute) and is invoked twice; entries 1
and 2 share the trigger time and both fire within the single tick at
`now = 0`. -/
theorem c6_no_dedup_no_history_witness :
    (runTicks 0 [(0, [healthyRun]), (30000, [healthyRun])]).countP
        (isInvokeOf 1) = 2 ∧
    TickEvent.invoked 1 ∈ tickLoop 0 0 [healthyRun, healthyRun2] ∧
    TickEvent.invoked 2 ∈ tickLoop 0 0 [healthyRun, healthyRun2] :=
  c6_no_dedup_no_history 0 0 30000 healthyRun healthyRun2
    (by decide) (by decide) ⟨sampleResult, rfl⟩ rfl
    (by decide) ⟨sampleResult, rfl⟩ rfl

end PlanChanger
